import Mathlib

/-!
Verification of `pydemolib/nessiedemo/spark.py` (Nessie demo Spark session
lifecycle manager) via a shallow embedding.

The embedding models the module state as a `World` value: a heap of
`SparkSession` objects, a heap of `NessieDemoSpark` instances (each an
attribute dictionary, mirroring CPython instance dictionaries including
name mangling of double-underscore attributes), the process-wide
`SparkContext` class attributes, the module-level registry
`__NESSIE_SPARK_DEMO__`, and a trace of externally observable calls
(downloads, extraction, stop/shutdown calls).

External collaborators (pyspark, findspark, `_Util`, `NessieDemo`) are
modelled by the interface the source uses, as events and opaque handles.
-/

set_option autoImplicit false

instance {ε α : Type} [DecidableEq ε] [DecidableEq α] : DecidableEq (Except ε α) :=
  fun a b =>
    match a, b with
    | Except.error e, Except.error f =>
      if h : e = f then isTrue (congrArg Except.error h)
      else isFalse (fun hh => h (Except.error.inj hh))
    | Except.error _, Except.ok _ => isFalse (fun hh => Except.noConfusion hh)
    | Except.ok _, Except.error _ => isFalse (fun hh => Except.noConfusion hh)
    | Except.ok x, Except.ok y =>
      if h : x = y then isTrue (congrArg Except.ok h)
      else isFalse (fun hh => h (Except.ok.inj hh))

namespace NessieSpark

/-- `listStartsWith l pat` is true when `pat` is an initial segment of `l`. -/
def listStartsWith : List Char → List Char → Bool
  | _, [] => true
  | [], _ :: _ => false
  | c :: cs, p :: ps => c == p && listStartsWith cs ps

/-- `occursIn pat l` is true when `pat` occurs as a contiguous run inside `l`. -/
def occursIn (pat : List Char) : List Char → Bool
  | [] => pat.isEmpty
  | l@(_ :: cs) => listStartsWith l pat || occursIn pat cs

/-- True when the string ends with the four characters `.tgz`. -/
def endsWithTgz (s : String) : Bool :=
  listStartsWith s.toList.reverse ['z', 'g', 't', '.']

/-- Character class `[a-zA-Z0-9-.]` of the URL pattern in
`NessieDemoSpark.__init__` (`spark.py` line 59). -/
def isNameChar (c : Char) : Bool :=
  ('a' ≤ c && c ≤ 'z') || ('A' ≤ c && c ≤ 'Z') || ('0' ≤ c && c ≤ '9')
    || c == '-' || c == '.'

/-- Greedy match of `([a-zA-Z0-9-.]+)[.]tgz` at the start of `cs`: group
lengths are tried from `J` (the maximal class run) downwards, mirroring
backtracking of the greedy `+`.  Returns the captured group. -/
def tryGroup (cs : List Char) : Nat → Option (List Char)
  | 0 => none
  | j + 1 =>
    if (cs.drop (j + 1)).take 4 = ['.', 't', 'g', 'z'] then some (cs.take (j + 1))
    else tryGroup cs j

/-- Match `([a-zA-Z0-9-.]+)[.]tgz` at the start of `cs` (greedy group). -/
def matchTgzAt (cs : List Char) : Option (List Char) :=
  tryGroup cs (cs.takeWhile isNameChar).length

/-- Python `re.match(".*[/]([a-zA-Z0-9-.]+)[.]tgz", s)`, returning group 1.
The greedy `.*` prefers the rightmost `/` that lets the rest of the pattern
match; `re.match` anchors only at the start of the string, so characters may
follow the matched `.tgz`. -/
def reMatchTgz : List Char → Option (List Char)
  | [] => none
  | c :: cs =>
    match reMatchTgz cs with
    | some g => some g
    | none => if c = '/' then matchTgzAt cs else none

/-- Directory name derived from the Spark tarball URL
(`spark.py` lines 59-62). -/
def derive_dir_name (url : String) : Option String :=
  (reMatchTgz url.toList).map String.mk

/-- The parent demo-environment handle (`NessieDemo`, defined in
`nessiedemo/demo.py`, outside the verified sources), as the interface
`spark.py` uses: the Spark tarball URL from `_get_versions_dict`, the
Iceberg version, the Nessie API URI, and the root under which
`_asset_dir` resolves names. -/
structure NessieDemo where
  tarball : String
  icebergVersion : String
  nessieApiUri : String
  assetRoot : String
deriving DecidableEq, Repr

/-- Modelled from the spec: the asset manager operation
`asset_dir(name) -> Path` of the external demo handle (its implementation,
`NessieDemo._asset_dir`, is not among the verified sources); it resolves a
name to a path under the asset root. -/
def asset_dir (d : NessieDemo) (name : String) : String :=
  d.assetRoot ++ "/" ++ name

/-- The filesystem as the set of paths that exist (`os.path.exists`). -/
structure FileSystem where
  paths : List String
deriving DecidableEq, Repr

def pathExists (fs : FileSystem) (p : String) : Bool :=
  fs.paths.contains p

/-- Values held by instance attributes of a `NessieDemoSpark` object:
a session handle (id into the session heap), a `SparkContext` handle,
a JVM gateway handle, or the parent `NessieDemo` handle. -/
inductive Val where
  | vSession (sid : Nat)
  | vContext (cid : Nat)
  | vJvm (jid : Nat)
  | vDemo (d : NessieDemo)
deriving DecidableEq, Repr

/-- CPython name mangling: inside `class NessieDemoSpark`, an identifier
attribute access `self.__x` (two leading underscores, at most one trailing)
compiles to the attribute name `_NessieDemoSpark__x`.  String arguments to
`delattr`/`getattr` are NOT mangled. -/
def mangle (priv : String) : String :=
  "_NessieDemoSpark" ++ priv

/-- A CPython instance attribute dictionary: attribute name to value,
in insertion order. -/
abbrev Attrs := List (String × Val)

def attrsGet : Attrs → String → Option Val
  | [], _ => none
  | p :: t, n => if p.1 == n then some p.2 else attrsGet t n

/-- Dictionary update: overwrite the entry when present (keys are unique in
a CPython instance dictionary), else append in insertion order. -/
def attrsSet : Attrs → String → Val → Attrs
  | [], n, v => [(n, v)]
  | p :: t, n, v => if p.1 == n then (n, v) :: t else p :: attrsSet t n v

/-- `delattr`: `none` models the `AttributeError` raised when the attribute
is absent. -/
def attrsDel : Attrs → String → Option Attrs
  | [], _ => none
  | p :: t, n => if p.1 == n then some t else (attrsDel t n).map (p :: ·)

/-- Externally observable calls made by the module: download (`_Util.wget`),
extraction (`tar -x`), setting `SPARK_HOME`, `findspark.init()`, the stop
and shutdown calls issued during disposal, and `java_import` registrations. -/
inductive Event where
  | wget (url dest : String)
  | tarExtract (archive : String)
  | setSparkHome (dir : String)
  | findsparkInit
  | sessionStop (sid : Nat)
  | contextStop (cid : Nat)
  | gatewayShutdown (gid : Nat)
  | demoStop (d : NessieDemo)
  | javaImport (cls : String)
deriving DecidableEq, Repr

/-- Python exceptions the embedded code can raise:
`invalidSparkUrl` models `Exception("Invalid Spark download URL ...")`
(the spec calls it `ConfigurationError`), `attributeError` models
`AttributeError` (raised when accessing a missing attribute; the spec calls
the no-base-session case `StateError`), and `sparkError` models a failure
raised by the external session builder. -/
inductive PyErr where
  | invalidSparkUrl (url : String)
  | attributeError
  | sparkError
deriving DecidableEq, Repr

/-- A `SparkSession`: the `SparkContext` backing it and its configuration. -/
structure Session where
  ctx : Nat
  conf : List (String × String)
deriving DecidableEq, Repr

/-- The process-wide `SparkContext` class attributes touched by `spark.py`:
`_active_spark_context`, `_gateway` and `_jvm`. -/
structure SCGlobals where
  active_spark_context : Option Nat
  gateway : Option Nat
  jvm : Option Nat
deriving DecidableEq, Repr

/-- A heap keyed by `Nat` object identities (identities are unique). -/
def heapGet {α : Type} : List (Nat × α) → Nat → Option α
  | [], _ => none
  | p :: t, i => if p.1 == i then some p.2 else heapGet t i

def heapSet {α : Type} : List (Nat × α) → Nat → α → List (Nat × α)
  | [], _, _ => []
  | p :: t, i, v => if p.1 == i then (i, v) :: t else p :: heapSet t i v

/-- The whole module-level state: the session heap, the heap of
`NessieDemoSpark` instances, the registry `__NESSIE_SPARK_DEMO__`,
the `SparkContext` class attributes, a fresh-identity counter and the
event trace. -/
structure World where
  sessions : List (Nat × Session)
  managers : List (Nat × Attrs)
  registry : Option Nat
  sc : SCGlobals
  nextId : Nat
  events : List Event
deriving DecidableEq, Repr

def World.empty : World :=
  { sessions := [], managers := [], registry := none,
    sc := { active_spark_context := none, gateway := none, jvm := none },
    nextId := 0, events := [] }

/-- `SparkConf.set`: overwrite the key when present, else append. -/
def confSet : List (String × String) → String → String → List (String × String)
  | [], k, v => [(k, v)]
  | p :: t, k, v => if p.1 == k then (k, v) :: t else p :: confSet t k v

def confGet : List (String × String) → String → Option String
  | [], _ => none
  | p :: t, k => if p.1 == k then some p.2 else confGet t k

namespace NessieDemoSpark

/-- `NessieDemoSpark.__init__` (`spark.py` lines 53-74): store the demo
handle, derive the directory name from the tarball URL (raising on no
match), then, when the extracted directory is absent, download the tarball
(unless already present) and extract it; finally set `SPARK_HOME` and run
`findspark.init()`.  Returns the instance attribute dictionary and the
trace of external calls; on error the partially constructed object is
discarded, no external call having been made before the raise. -/
def init (demo : NessieDemo) (fs : FileSystem) : Except PyErr (Attrs × List Event) :=
  let a0 : Attrs := [(mangle "__demo", Val.vDemo demo)]
  match derive_dir_name demo.tarball with
  | none => .error (.invalidSparkUrl demo.tarball)
  | some dirName =>
    let sparkDir := asset_dir demo dirName
    let tgz := asset_dir demo (dirName ++ ".tgz")
    let dl : List Event :=
      if pathExists fs sparkDir then []
      else
        (if pathExists fs tgz then [] else [Event.wget demo.tarball tgz])
          ++ [Event.tarExtract tgz]
    .ok (a0, dl ++ [Event.setSparkHome sparkDir, Event.findsparkInit])

/-- `NessieDemoSpark.__spark_conf` (`spark.py` lines 100-122). -/
def spark_conf (demo : NessieDemo) (nessie_ref : String) : List (String × String) :=
  let spark_warehouse := "file://" ++ asset_dir demo "spark_warehouse"
  let spark_jars := "org.apache.iceberg:iceberg-spark3-runtime:" ++ demo.icebergVersion
  let conf : List (String × String) := []
  let conf := confSet conf "spark.jars.packages" spark_jars
  let conf := confSet conf "spark.sql.execution.pyarrow.enabled" "true"
  let conf := confSet conf "spark.sql.catalog.nessie.warehouse" spark_warehouse
  let conf := confSet conf "spark.sql.catalog.nessie.url" demo.nessieApiUri
  let conf := confSet conf "spark.sql.catalog.nessie.ref" nessie_ref
  let conf := confSet conf "spark.sql.catalog.nessie.catalog-impl" "org.apache.iceberg.nessie.NessieCatalog"
  let conf := confSet conf "spark.sql.catalog.nessie.auth_type" "NONE"
  let conf := confSet conf "spark.sql.catalog.nessie.cache-enabled" "false"
  let conf := confSet conf "spark.sql.catalog.nessie" "org.apache.iceberg.spark.SparkCatalog"
  let conf := confSet conf "spark.sql.catalog.spark_catalog" "org.apache.iceberg.spark.SparkSessionCatalog"
  conf

/-- `NessieDemoSpark.__jvm_for_iceberg` (`spark.py` lines 124-133): returns
the `_gateway.jvm` handle after five `java_import` registrations. -/
def jvm_for_iceberg (jid : Nat) : Nat × List Event :=
  (jid,
    [Event.javaImport "org.apache.iceberg.CatalogUtil",
     Event.javaImport "org.apache.iceberg.catalog.TableIdentifier",
     Event.javaImport "org.apache.iceberg.Schema",
     Event.javaImport "org.apache.iceberg.types.Types",
     Event.javaImport "org.apache.iceberg.PartitionSpec"])

/-- `NessieDemoSpark.get_or_create_spark_context` (`spark.py` lines 84-98):
build the `SparkConf`, create the session via
`SparkSession.builder.config(conf=conf).getOrCreate()` (reusing the active
`SparkContext` when one exists, else creating context, gateway and JVM
handle and publishing them in the `SparkContext` class attributes), then
store session, context and the imported JVM handle in instance attributes.
The external builder is opaque: `sessionCreateOk` selects whether it
returns a session or raises; a raise leaves instance and module state
untouched (the assignments on lines 93-95 never run). -/
def get_or_create_spark_context (mid : Nat) (nessie_ref : String)
    (sessionCreateOk : Bool) (w : World) : World × Except PyErr (Nat × Nat × Nat) :=
  match heapGet w.managers mid with
  | none => (w, .error .attributeError)
  | some a =>
    match attrsGet a (mangle "__demo") with
    | some (Val.vDemo demo) =>
      let conf := spark_conf demo nessie_ref
      if sessionCreateOk then
        let (cid, jid, w1) :=
          match w.sc.active_spark_context, w.sc.gateway, w.sc.jvm with
          | some c, some _, some j => (c, j, w)
          | _, _, _ =>
            let c := w.nextId
            (c, c + 2,
             { w with nextId := w.nextId + 3,
                      sc := { active_spark_context := some c,
                              gateway := some (c + 1), jvm := some (c + 2) } })
        let sid := w1.nextId
        let (jvmHandle, jev) := jvm_for_iceberg jid
        let a1 := attrsSet a (mangle "__spark") (Val.vSession sid)
        let a2 := attrsSet a1 (mangle "__spark_context") (Val.vContext cid)
        let a3 := attrsSet a2 (mangle "__jvm") (Val.vJvm jvmHandle)
        let w2 := { w1 with
          sessions := w1.sessions ++ [(sid, { ctx := cid, conf := conf })],
          nextId := sid + 1,
          managers := heapSet w1.managers mid a3,
          events := w1.events ++ jev }
        (w2, .ok (sid, cid, jvmHandle))
      else (w, .error .sparkError)
    | _ => (w, .error .attributeError)

/-- `NessieDemoSpark.session_for_ref` (`spark.py` lines 135-143):
`self.__spark.newSession()` (raising `AttributeError` when no base session
attribute exists) yields a fresh session object sharing the backing
`SparkContext` and inheriting the configuration; then
`new_session.conf.set("spark.sql.catalog.nessie.ref", nessie_ref)`
reconfigures only that key on the new session.  Returns the new session
identity. -/
def session_for_ref (mid : Nat) (nessie_ref : String) (w : World) :
    World × Except PyErr Nat :=
  match heapGet w.managers mid with
  | none => (w, .error .attributeError)
  | some a =>
    match attrsGet a (mangle "__spark") with
    | some (Val.vSession b) =>
      match heapGet w.sessions b with
      | none => (w, .error .attributeError)
      | some base =>
        let nid := w.nextId
        let ns : Session :=
          { ctx := base.ctx,
            conf := confSet base.conf "spark.sql.catalog.nessie.ref" nessie_ref }
        ({ w with sessions := w.sessions ++ [(nid, ns)], nextId := nid + 1 },
         .ok nid)
    | _ => (w, .error .attributeError)

/-- Session-stop event for the value read from `self.__spark`; stopping a
session stops the backing `SparkContext`, which clears the process-wide
`_active_spark_context` reference (handled at the call site). -/
def stopEvents : Val → List Event
  | .vSession s => [Event.sessionStop s]
  | _ => []

/-- Demo-stop event for the value read from `self.__demo`. -/
def demoStopEvents : Val → List Event
  | .vDemo d => [Event.demoStop d]
  | _ => []

/-- `NessieDemoSpark.dispose` (`spark.py` lines 145-165), translated
statement by statement.  Two `try ... except AttributeError: pass` blocks:

First block: read `self.__spark` (mangled attribute
`_NessieDemoSpark__spark`; missing → caught), call `spark_sess.stop()`
(stops the backing context, clearing `_active_spark_context`), then
`delattr(self, "__spark")` with the UNMANGLED literal name — no attribute
of that literal name ever exists, so this raises `AttributeError`, the
handler catches it and the remaining statements of the block (the other
two `delattr` calls, `SparkContext._active_spark_context.stop()`,
`SparkContext._gateway.shutdown()` and the clearing assignments) are
skipped.  The translation keeps those statements faithfully; reading a
`None` class attribute and calling a method on it also raises
`AttributeError` and is caught.

Second block: `self.__demo.stop()` (mangled read), then
`delattr(self, "__demo")`, again with the unmangled literal name, again
raising and being caught.  External `stop()`/`shutdown()` calls are
assumed not to raise. -/
def dispose (mid : Nat) (w : World) : World :=
  match heapGet w.managers mid with
  | none => w
  | some a =>
    let (a1, w1) :=
      match attrsGet a (mangle "__spark") with
      | none => (a, w)
      | some v =>
        let wStop := { w with
          sc := { w.sc with active_spark_context := none },
          events := w.events ++ stopEvents v }
        match attrsDel a "__spark" with
        | none => (a, wStop)
        | some b1 =>
          match attrsDel b1 "__spark_context" with
          | none => (b1, wStop)
          | some b2 =>
            match attrsDel b2 "__jvm" with
            | none => (b2, wStop)
            | some b3 =>
              match wStop.sc.active_spark_context with
              | none => (b3, wStop)
              | some c =>
                let wC := { wStop with
                  sc := { wStop.sc with active_spark_context := none },
                  events := wStop.events ++ [Event.contextStop c] }
                match wC.sc.gateway with
                | none => (b3, wC)
                | some gw =>
                  (b3, { wC with
                    sc := { wC.sc with gateway := none, jvm := none },
                    events := wC.events ++ [Event.gatewayShutdown gw] })
    let (a2, w2) :=
      match attrsGet a1 (mangle "__demo") with
      | none => (a1, w1)
      | some v =>
        let wD := { w1 with events := w1.events ++ demoStopEvents v }
        match attrsDel a1 "__demo" with
        | none => (a1, wD)
        | some b => (b, wD)
    { w2 with managers := heapSet w2.managers mid a2 }

end NessieDemoSpark

/-- `spark_dispose` (`spark.py` lines 189-194): when the registry holds a
manager, dispose it and clear the slot. -/
def spark_dispose (w : World) : World :=
  match w.registry with
  | none => w
  | some mid => { NessieDemoSpark.dispose mid w with registry := none }

/-- `spark_for_demo` (`spark.py` lines 171-186): dispose any registered
manager, construct a new `NessieDemoSpark` (allocating its identity on the
instance heap), assign it to `__NESSIE_SPARK_DEMO__`, then call
`get_or_create_spark_context`.  An exception from construction or from
session creation propagates (`Except.error`), with all state mutations made
up to that point kept. -/
def spark_for_demo (demo : NessieDemo) (fs : FileSystem) (nessie_ref : String)
    (sessionCreateOk : Bool) (w : World) :
    World × Except PyErr (Nat × Nat × Nat × Nat) :=
  let w1 := spark_dispose w
  match NessieDemoSpark.init demo fs with
  | .error e => (w1, .error e)
  | .ok (a, evs) =>
    let mid := w1.nextId
    let w2 := { w1 with
      managers := w1.managers ++ [(mid, a)],
      nextId := mid + 1,
      events := w1.events ++ evs }
    let w3 := { w2 with registry := some mid }
    match NessieDemoSpark.get_or_create_spark_context mid nessie_ref sessionCreateOk w3 with
    | (w4, .error e) => (w4, .error e)
    | (w4, .ok (s, c, j)) => (w4, .ok (s, c, j, mid))

/-! ### Concrete fixtures used by the closed scenario theorems -/

/-- A demo handle with the example tarball URL of the spec. -/
def demoA : NessieDemo :=
  { tarball := "https://example.org/dist/spark-3.2.1-bin-hadoop3.2.tgz",
    icebergVersion := "0.12.0",
    nessieApiUri := "http://localhost:19120/api/v1",
    assetRoot := "/assets" }

/-- A second, fresh demo handle (different asset root). -/
def demoB : NessieDemo := { demoA with assetRoot := "/assetsB" }

/-- A demo handle whose tarball URL contains `/spark-1.0.tgz` but does not
end in `.tgz`. -/
def demoTgzZip : NessieDemo :=
  { demoA with tarball := "https://example.org/dist/spark-1.0.tgz.zip" }

/-- A demo handle whose tarball URL contains no `.tgz` at all. -/
def demoZip : NessieDemo :=
  { demoA with tarball := "https://example.org/dist/spark-1.0.zip" }

/-- Both expected extraction directories already exist (downloads skipped). -/
def fsAB : FileSystem :=
  { paths := ["/assets/spark-3.2.1-bin-hadoop3.2", "/assetsB/spark-3.2.1-bin-hadoop3.2"] }

def fsEmpty : FileSystem := { paths := [] }

/-- The world after one `spark_for_demo(demoA)` call from the empty world:
manager 0 registered, session 4 on context 1, gateway 2, JVM handle 3. -/
def wA : World := (spark_for_demo demoA fsAB "main" true World.empty).1

/-- The instance attribute dictionary of manager 0 in `wA`. -/
def attrsA : Attrs :=
  [(mangle "__demo", Val.vDemo demoA),
   (mangle "__spark", Val.vSession 4),
   (mangle "__spark_context", Val.vContext 1),
   (mangle "__jvm", Val.vJvm 3)]

/-- The base session of manager 0 in `wA`. -/
def sessA : Session := { ctx := 1, conf := NessieDemoSpark.spark_conf demoA "main" }

/-- A world holding one manager that never created a session. -/
def wNoSess : World :=
  { World.empty with
    managers := [(0, [(mangle "__demo", Val.vDemo demoA)])],
    nextId := 1 }

/-- The archive file is present but the extracted directory is not. -/
def fsTgzOnly : FileSystem :=
  { paths := ["/assets/spark-3.2.1-bin-hadoop3.2.tgz"] }

/-- The extracted directory derived from the `.tgz.zip` URL exists. -/
def fsTgzZipDir : FileSystem := { paths := ["/assets/spark-1.0"] }

/-! ### Helper lemmas -/

theorem heapGet_append_of_none {α : Type} (h l : List (Nat × α)) (i : Nat)
    (hn : heapGet h i = none) : heapGet (h ++ l) i = heapGet l i := by
  induction h with
  | nil => simp
  | cons p t ih =>
    rw [heapGet] at hn
    by_cases hp : (p.1 == i) = true
    · simp [hp] at hn
    · rw [List.cons_append, heapGet]
      simp only [hp, if_false]
      exact ih (by simpa [hp] using hn)

theorem heapGet_append_of_some {α : Type} (h l : List (Nat × α)) (i : Nat) (v : α)
    (hv : heapGet h i = some v) : heapGet (h ++ l) i = some v := by
  induction h with
  | nil => simp [heapGet] at hv
  | cons p t ih =>
    rw [heapGet] at hv
    by_cases hp : (p.1 == i) = true
    · rw [List.cons_append, heapGet]
      simpa [hp] using hv
    · rw [List.cons_append, heapGet]
      simp only [hp, if_false]
      exact ih (by simpa [hp] using hv)

theorem confGet_confSet_self (c : List (String × String)) (k v : String) :
    confGet (confSet c k v) k = some v := by
  induction c with
  | nil => simp [confSet, confGet]
  | cons p t ih =>
    by_cases hp : (p.1 == k) = true
    · simp [confSet, confGet, hp]
    · simp [confSet, confGet, hp, ih]

theorem confGet_confSet_ne (c : List (String × String)) (k v k' : String)
    (hne : k' ≠ k) : confGet (confSet c k v) k' = confGet c k' := by
  have hkk : (k == k') = false := by
    simp only [beq_eq_false_iff_ne]
    exact fun h => hne h.symm
  induction c with
  | nil => simp [confSet, confGet, hkk]
  | cons p t ih =>
    by_cases hp : (p.1 == k) = true
    · have hp1 : p.1 = k := by simpa using hp
      simp [confSet, confGet, hp, hkk, hp1]
    · simp only [confSet, hp, if_false]
      rw [confGet]
      by_cases hq : (p.1 == k') = true
      · simp [confGet, hq]
      · simp [confGet, hq, ih]

theorem listStartsWith_of_take (pat : List Char) :
    ∀ l : List Char, l.take pat.length = pat → listStartsWith l pat = true := by
  induction pat with
  | nil => intro l _; cases l <;> rfl
  | cons p ps ih =>
    intro l h
    cases l with
    | nil => simp at h
    | cons c cs =>
      rw [List.length_cons, List.take_succ_cons] at h
      injection h with h1 h2
      rw [listStartsWith]
      simp [h1, ih cs h2]

theorem occursIn_of_startsWith_drop (pat : List Char) :
    ∀ (l : List Char) (j : Nat), listStartsWith (l.drop j) pat = true →
      occursIn pat l = true := by
  intro l
  induction l with
  | nil =>
    intro j h
    cases pat with
    | nil => rfl
    | cons p ps => rw [List.drop_nil] at h; exact absurd h (by simp [listStartsWith])
  | cons c cs ih =>
    intro j h
    cases j with
    | zero =>
      rw [List.drop_zero] at h
      rw [occursIn]
      simp [h]
    | succ j =>
      rw [List.drop_succ_cons] at h
      rw [occursIn]
      simp [ih j h]

theorem tryGroup_occursIn (cs : List Char) :
    ∀ (J : Nat) (g : List Char), tryGroup cs J = some g →
      occursIn ['.', 't', 'g', 'z'] cs = true := by
  intro J
  induction J with
  | zero => intro g h; simp [tryGroup] at h
  | succ j ih =>
    intro g h
    by_cases hc : (cs.drop (j + 1)).take 4 = ['.', 't', 'g', 'z']
    · exact occursIn_of_startsWith_drop _ cs (j + 1) (listStartsWith_of_take _ _ hc)
    · rw [tryGroup, if_neg hc] at h
      exact ih g h

theorem reMatchTgz_occursIn : ∀ (cs g : List Char),
    reMatchTgz cs = some g → occursIn ['.', 't', 'g', 'z'] cs = true := by
  intro cs
  induction cs with
  | nil => intro g h; simp [reMatchTgz] at h
  | cons c cs ih =>
    intro g h
    rw [reMatchTgz] at h
    cases hr : reMatchTgz cs with
    | some g' =>
      rw [occursIn]
      simp [ih g' hr]
    | none =>
      rw [hr] at h
      by_cases hc : c = '/'
      · rw [if_pos hc] at h
        rw [matchTgzAt] at h
        have := tryGroup_occursIn cs _ g h
        rw [occursIn]
        simp [this]
      · rw [if_neg hc] at h
        exact absurd h (by simp)

theorem tryGroup_isSome (cs : List Char) :
    ∀ (J j : Nat), 1 ≤ j → j ≤ J →
      (cs.drop j).take 4 = ['.', 't', 'g', 'z'] →
      (tryGroup cs J).isSome = true := by
  intro J
  induction J with
  | zero => intro j h1 h2 _; omega
  | succ J ih =>
    intro j h1 h2 hc
    by_cases h : (cs.drop (J + 1)).take 4 = ['.', 't', 'g', 'z']
    · rw [tryGroup, if_pos h]; rfl
    · rw [tryGroup, if_neg h]
      have hj : j ≤ J := by
        rcases Nat.lt_or_ge j (J + 1) with h' | h'
        · omega
        · exfalso
          have : j = J + 1 := by omega
          subst this
          exact h hc
      exact ih j h1 hj hc

theorem takeWhile_len_ge (g rest : List Char)
    (hg : ∀ c ∈ g, isNameChar c = true) :
    g.length ≤ ((g ++ rest).takeWhile isNameChar).length := by
  induction g with
  | nil => simp
  | cons c t ih =>
    have hc : isNameChar c = true := hg c (by simp)
    rw [List.cons_append, List.takeWhile_cons, if_pos hc, List.length_cons,
      List.length_cons]
    exact Nat.succ_le_succ (ih (fun x hx => hg x (by simp [hx])))

theorem matchTgzAt_isSome (g rest : List Char) (hne : g ≠ [])
    (hg : ∀ c ∈ g, isNameChar c = true) :
    (matchTgzAt (g ++ '.' :: 't' :: 'g' :: 'z' :: rest)).isSome = true := by
  rw [matchTgzAt]
  apply tryGroup_isSome _ _ g.length
  · cases g with
    | nil => exact absurd rfl hne
    | cons c t => simp
  · exact takeWhile_len_ge g _ hg
  · rw [List.drop_left]
    rfl

theorem reMatchTgz_cons_isSome (c : Char) (cs : List Char)
    (h : (reMatchTgz cs).isSome = true) :
    (reMatchTgz (c :: cs)).isSome = true := by
  rw [reMatchTgz]
  cases hr : reMatchTgz cs with
  | some g => rfl
  | none => rw [hr] at h; simp at h

theorem reMatchTgz_slash_isSome (cs : List Char)
    (h : (matchTgzAt cs).isSome = true) :
    (reMatchTgz ('/' :: cs)).isSome = true := by
  rw [reMatchTgz]
  cases hr : reMatchTgz cs with
  | some g => rfl
  | none => simpa using h

theorem reMatchTgz_unanchored (a g rest : List Char) (hne : g ≠ [])
    (hg : ∀ c ∈ g, isNameChar c = true) :
    (reMatchTgz (a ++ '/' :: (g ++ '.' :: 't' :: 'g' :: 'z' :: rest))).isSome = true := by
  induction a with
  | nil =>
    rw [List.nil_append]
    exact reMatchTgz_slash_isSome _ (matchTgzAt_isSome g rest hne hg)
  | cons c t ih =>
    rw [List.cons_append]
    exact reMatchTgz_cons_isSome c _ ih

theorem init_ok_attrs (demo : NessieDemo) (fs : FileSystem) (a : Attrs)
    (evs : List Event) (h : NessieDemoSpark.init demo fs = Except.ok (a, evs)) :
    a = [(mangle "__demo", Val.vDemo demo)] := by
  rw [NessieDemoSpark.init] at h
  cases hd : derive_dir_name demo.tarball with
  | none => rw [hd] at h; exact absurd h (by simp)
  | some n =>
    rw [hd] at h
    simp only [Except.ok.injEq, Prod.mk.injEq] at h
    exact h.1.symm

/-! ### Claim theorems -/

/-- C1: the claim says a second `dispose()` is a no-op.  On the code it is
not: `delattr(self, "__spark")` and `delattr(self, "__demo")` pass the
unmangled literal attribute names, which never exist (the attributes are
stored under the mangled names), so every `delattr` raises
`AttributeError`, the fields survive disposal, and the second `dispose()`
stops the session and the demo handle all over again — both for a manager
with a created session (`wA`) and for one without (`wNoSess`, where the
demo handle is re-stopped).  No exception escapes (every `AttributeError`
is caught), so only the no-op half of the claim fails. -/
theorem c1_second_dispose_repeats_stop_calls :
    (NessieDemoSpark.dispose 0 (NessieDemoSpark.dispose 0 wA)).events =
      (NessieDemoSpark.dispose 0 wA).events
        ++ [Event.sessionStop 4, Event.demoStop demoA]
    ∧ NessieDemoSpark.dispose 0 (NessieDemoSpark.dispose 0 wA)
        ≠ NessieDemoSpark.dispose 0 wA
    ∧ (NessieDemoSpark.dispose 0 (NessieDemoSpark.dispose 0 wNoSess)).events =
        (NessieDemoSpark.dispose 0 wNoSess).events ++ [Event.demoStop demoA] := by
  decide

/-- C2: after `dispose()` on a manager with a created session, none of the
four fields is cleared (all four mangled attributes are still present and
the whole attribute dictionary is unchanged), and the process-wide gateway
is neither shut down nor cleared — the `delattr` with the unmangled name
raises first and the blanket `except AttributeError` skips the rest of the
block. -/
theorem c2_dispose_clears_no_fields :
    heapGet (NessieDemoSpark.dispose 0 wA).managers 0 = some attrsA
    ∧ heapGet wA.managers 0 = some attrsA
    ∧ attrsGet attrsA (mangle "__spark") = some (Val.vSession 4)
    ∧ attrsGet attrsA (mangle "__spark_context") = some (Val.vContext 1)
    ∧ attrsGet attrsA (mangle "__jvm") = some (Val.vJvm 3)
    ∧ attrsGet attrsA (mangle "__demo") = some (Val.vDemo demoA)
    ∧ (NessieDemoSpark.dispose 0 wA).sc.gateway = some 2
    ∧ Event.gatewayShutdown 2 ∉ (NessieDemoSpark.dispose 0 wA).events
    ∧ Event.contextStop 1 ∉ (NessieDemoSpark.dispose 0 wA).events := by
  decide

/-- C3: the registry is a single optional slot; a second `spark_for_demo`
call with a fresh demo handle first disposes the registered manager 0
(the `sessionStop`/`demoStop` calls of manager 0 appear in the trace before
any creation event of the new manager) and afterwards only the new
manager 5 is registered. -/
theorem c3_registry_replace_on_create :
    wA.registry = some 0
    ∧ (spark_for_demo demoB fsAB "main" true wA).1.registry = some 5
    ∧ (5 : Nat) ≠ 0
    ∧ (spark_for_demo demoB fsAB "main" true wA).1.events =
        wA.events ++
          [Event.sessionStop 4, Event.demoStop demoA,
           Event.setSparkHome "/assetsB/spark-3.2.1-bin-hadoop3.2",
           Event.findsparkInit,
           Event.javaImport "org.apache.iceberg.CatalogUtil",
           Event.javaImport "org.apache.iceberg.catalog.TableIdentifier",
           Event.javaImport "org.apache.iceberg.Schema",
           Event.javaImport "org.apache.iceberg.types.Types",
           Event.javaImport "org.apache.iceberg.PartitionSpec"] := by
  decide

/-- C4 (counterexample): the claim says construction fails for every URL
lacking a `.tgz` suffix; but for the URL
`https://example.org/dist/spark-1.0.tgz.zip`, which does not end in
`.tgz`, construction succeeds (the unanchored `re.match` accepts it) and
derives the name `spark-1.0`. -/
theorem c4_counterexample :
    endsWithTgz "https://example.org/dist/spark-1.0.tgz.zip" = false
    ∧ NessieDemoSpark.init demoTgzZip fsEmpty =
        Except.ok ([(mangle "__demo", Val.vDemo demoTgzZip)],
          [Event.wget "https://example.org/dist/spark-1.0.tgz.zip"
             "/assets/spark-1.0.tgz",
           Event.tarExtract "/assets/spark-1.0.tgz",
           Event.setSparkHome "/assets/spark-1.0", Event.findsparkInit])
    ∧ derive_dir_name "https://example.org/dist/spark-1.0.tgz.zip" =
        some "spark-1.0" := by
  decide

/-- C4 (amended): the example URL derives exactly
`spark-3.2.1-bin-hadoop3.2`; and every URL in which the character sequence
`.tgz` does not occur at all (in particular a plain `.zip` URL) makes
construction fail with the invalid-URL error (the spec's
`ConfigurationError`).  URLs that merely lack a `.tgz` SUFFIX can still be
accepted when `.tgz` occurs earlier in the final segment. -/
theorem c4_url_pattern :
    derive_dir_name "https://example.org/dist/spark-3.2.1-bin-hadoop3.2.tgz" =
      some "spark-3.2.1-bin-hadoop3.2"
    ∧ ∀ (demo : NessieDemo) (fs : FileSystem),
        occursIn ['.', 't', 'g', 'z'] demo.tarball.toList = false →
        NessieDemoSpark.init demo fs =
          Except.error (PyErr.invalidSparkUrl demo.tarball) := by
  constructor
  · decide
  · intro demo fs hocc
    have hnone : reMatchTgz demo.tarball.toList = none := by
      cases hr : reMatchTgz demo.tarball.toList with
      | none => rfl
      | some g =>
        rw [reMatchTgz_occursIn _ g hr] at hocc
        exact absurd hocc (by simp)
    have hnone' : reMatchTgz demo.tarball.data = none := hnone
    rw [NessieDemoSpark.init]
    simp [derive_dir_name, hnone']

/-- C4 witness: the amended failure case at the concrete URL
`https://example.org/dist/spark-1.0.zip`. -/
theorem c4_url_pattern_witness :
    occursIn ['.', 't', 'g', 'z'] demoZip.tarball.toList = false
    ∧ NessieDemoSpark.init demoZip fsEmpty =
        Except.error (PyErr.invalidSparkUrl demoZip.tarball) :=
  ⟨by decide, c4_url_pattern.2 demoZip fsEmpty (by decide)⟩

/-- C5: calling `session_for_ref` on a manager whose base-session attribute
is absent (no `get_or_create_spark_context` call yet) fails with the
missing-attribute error (the spec's `StateError`) and returns the world
unchanged: no state is mutated. -/
theorem c5_fail_without_base_session (w : World) (mid : Nat) (a : Attrs)
    (r : String) (hm : heapGet w.managers mid = some a)
    (hs : attrsGet a (mangle "__spark") = none) :
    NessieDemoSpark.session_for_ref mid r w =
      (w, Except.error PyErr.attributeError) := by
  simp [NessieDemoSpark.session_for_ref, hm, hs]

/-- C5 witness: the concrete session-less manager. -/
theorem c5_fail_without_base_session_witness :
    (heapGet wNoSess.managers 0 = some [(mangle "__demo", Val.vDemo demoA)]
      ∧ attrsGet [(mangle "__demo", Val.vDemo demoA)] (mangle "__spark") = none)
    ∧ NessieDemoSpark.session_for_ref 0 "feature-1" wNoSess =
        (wNoSess, Except.error PyErr.attributeError) :=
  ⟨⟨by decide, by decide⟩,
   c5_fail_without_base_session wNoSess 0 [(mangle "__demo", Val.vDemo demoA)]
     "feature-1" (by decide) (by decide)⟩

/-- C6: with a base session configured on reference `main`,
`session_for_ref r` returns a fresh session object (a new heap identity,
distinct from the base), backed by the same execution context, whose
catalog reference configuration equals `r`; every other configuration key
of the new session is unchanged, and the base session itself is untouched
in the heap with its reference still `main`. -/
theorem c6_session_for_ref_derivation (w : World) (mid b : Nat) (a : Attrs)
    (base : Session) (r : String)
    (hm : heapGet w.managers mid = some a)
    (ha : attrsGet a (mangle "__spark") = some (Val.vSession b))
    (hb : heapGet w.sessions b = some base)
    (hmain : confGet base.conf "spark.sql.catalog.nessie.ref" = some "main")
    (hfresh : heapGet w.sessions w.nextId = none) :
    (NessieDemoSpark.session_for_ref mid r w).2 = Except.ok w.nextId
    ∧ b ≠ w.nextId
    ∧ heapGet (NessieDemoSpark.session_for_ref mid r w).1.sessions w.nextId =
        some { ctx := base.ctx,
               conf := confSet base.conf "spark.sql.catalog.nessie.ref" r }
    ∧ heapGet (NessieDemoSpark.session_for_ref mid r w).1.sessions b = some base
    ∧ confGet (confSet base.conf "spark.sql.catalog.nessie.ref" r)
        "spark.sql.catalog.nessie.ref" = some r
    ∧ (∀ k, k ≠ "spark.sql.catalog.nessie.ref" →
        confGet (confSet base.conf "spark.sql.catalog.nessie.ref" r) k =
          confGet base.conf k)
    ∧ confGet base.conf "spark.sql.catalog.nessie.ref" = some "main" := by
  have hbne : b ≠ w.nextId := by
    intro h
    rw [h, hfresh] at hb
    exact absurd hb (by simp)
  refine ⟨?_, hbne, ?_, ?_, ?_, ?_, hmain⟩
  · simp [NessieDemoSpark.session_for_ref, hm, ha, hb]
  · simp only [NessieDemoSpark.session_for_ref, hm, ha, hb]
    rw [heapGet_append_of_none _ _ _ hfresh]
    simp [heapGet]
  · simp only [NessieDemoSpark.session_for_ref, hm, ha, hb]
    exact heapGet_append_of_some _ _ _ _ hb
  · exact confGet_confSet_self base.conf _ r
  · intro k hk
    exact confGet_confSet_ne base.conf _ r k hk

/-- C6 witness: derive a `feature-1` session from the created base session
of the concrete world `wA`. -/
theorem c6_session_for_ref_derivation_witness :
    (heapGet wA.managers 0 = some attrsA
      ∧ attrsGet attrsA (mangle "__spark") = some (Val.vSession 4)
      ∧ heapGet wA.sessions 4 = some sessA
      ∧ confGet sessA.conf "spark.sql.catalog.nessie.ref" = some "main"
      ∧ heapGet wA.sessions wA.nextId = none)
    ∧ (NessieDemoSpark.session_for_ref 0 "feature-1" wA).2 = Except.ok wA.nextId
    ∧ confGet (confSet sessA.conf "spark.sql.catalog.nessie.ref" "feature-1")
        "spark.sql.catalog.nessie.ref" = some "feature-1" := by
  have h := c6_session_for_ref_derivation wA 0 4 attrsA sessA "feature-1"
    (by decide) (by decide) (by decide) (by decide) (by decide)
  exact ⟨⟨by decide, by decide, by decide, by decide, by decide⟩,
    h.1, h.2.2.2.2.1⟩

/-- C7: construction with a matching URL performs no download and no
extraction when the extracted directory exists; extraction only (no
download) when just the archive file exists; and both download and
extraction when neither exists. -/
theorem c7_skip_download_if_cached (demo : NessieDemo) (fs : FileSystem)
    (n : String) (hd : derive_dir_name demo.tarball = some n) :
    (pathExists fs (asset_dir demo n) = true →
      NessieDemoSpark.init demo fs =
        Except.ok ([(mangle "__demo", Val.vDemo demo)],
          [Event.setSparkHome (asset_dir demo n), Event.findsparkInit]))
    ∧ (pathExists fs (asset_dir demo n) = false →
       pathExists fs (asset_dir demo (n ++ ".tgz")) = true →
      NessieDemoSpark.init demo fs =
        Except.ok ([(mangle "__demo", Val.vDemo demo)],
          [Event.tarExtract (asset_dir demo (n ++ ".tgz")),
           Event.setSparkHome (asset_dir demo n), Event.findsparkInit]))
    ∧ (pathExists fs (asset_dir demo n) = false →
       pathExists fs (asset_dir demo (n ++ ".tgz")) = false →
      NessieDemoSpark.init demo fs =
        Except.ok ([(mangle "__demo", Val.vDemo demo)],
          [Event.wget demo.tarball (asset_dir demo (n ++ ".tgz")),
           Event.tarExtract (asset_dir demo (n ++ ".tgz")),
           Event.setSparkHome (asset_dir demo n), Event.findsparkInit])) := by
  refine ⟨fun h1 => ?_, fun h1 h2 => ?_, fun h1 h2 => ?_⟩
  · simp [NessieDemoSpark.init, hd, h1]
  · simp [NessieDemoSpark.init, hd, h1, h2]
  · simp [NessieDemoSpark.init, hd, h1, h2]

/-- C7 witness: the three cache states at the concrete demo handle. -/
theorem c7_skip_download_if_cached_witness :
    derive_dir_name demoA.tarball = some "spark-3.2.1-bin-hadoop3.2"
    ∧ NessieDemoSpark.init demoA fsAB =
        Except.ok ([(mangle "__demo", Val.vDemo demoA)],
          [Event.setSparkHome (asset_dir demoA "spark-3.2.1-bin-hadoop3.2"),
           Event.findsparkInit])
    ∧ NessieDemoSpark.init demoA fsTgzOnly =
        Except.ok ([(mangle "__demo", Val.vDemo demoA)],
          [Event.tarExtract (asset_dir demoA "spark-3.2.1-bin-hadoop3.2.tgz"),
           Event.setSparkHome (asset_dir demoA "spark-3.2.1-bin-hadoop3.2"),
           Event.findsparkInit])
    ∧ NessieDemoSpark.init demoA fsEmpty =
        Except.ok ([(mangle "__demo", Val.vDemo demoA)],
          [Event.wget demoA.tarball (asset_dir demoA "spark-3.2.1-bin-hadoop3.2.tgz"),
           Event.tarExtract (asset_dir demoA "spark-3.2.1-bin-hadoop3.2.tgz"),
           Event.setSparkHome (asset_dir demoA "spark-3.2.1-bin-hadoop3.2"),
           Event.findsparkInit]) := by
  have h1 := c7_skip_download_if_cached demoA fsAB
    "spark-3.2.1-bin-hadoop3.2" (by decide)
  have h2 := c7_skip_download_if_cached demoA fsTgzOnly
    "spark-3.2.1-bin-hadoop3.2" (by decide)
  have h3 := c7_skip_download_if_cached demoA fsEmpty
    "spark-3.2.1-bin-hadoop3.2" (by decide)
  exact ⟨by decide, h1.1 (by decide), h2.2.1 (by decide) (by decide),
    h3.2.2 (by decide) (by decide)⟩

/-- C8: for every reference `r` the built configuration sets exactly the
ten literal keys, in source order, with the reference key mapped to `r`,
auth mode `NONE` and caching `false`. -/
theorem c8_spark_conf_sets_exactly_ten_keys (demo : NessieDemo) (r : String) :
    (NessieDemoSpark.spark_conf demo r).map Prod.fst =
      ["spark.jars.packages", "spark.sql.execution.pyarrow.enabled",
       "spark.sql.catalog.nessie.warehouse", "spark.sql.catalog.nessie.url",
       "spark.sql.catalog.nessie.ref", "spark.sql.catalog.nessie.catalog-impl",
       "spark.sql.catalog.nessie.auth_type",
       "spark.sql.catalog.nessie.cache-enabled",
       "spark.sql.catalog.nessie", "spark.sql.catalog.spark_catalog"]
    ∧ confGet (NessieDemoSpark.spark_conf demo r)
        "spark.sql.catalog.nessie.ref" = some r
    ∧ confGet (NessieDemoSpark.spark_conf demo r)
        "spark.sql.catalog.nessie.auth_type" = some "NONE"
    ∧ confGet (NessieDemoSpark.spark_conf demo r)
        "spark.sql.catalog.nessie.cache-enabled" = some "false" := by
  refine ⟨?_, ?_, ?_, ?_⟩ <;>
    simp [NessieDemoSpark.spark_conf, confSet, confGet]

/-- C9: the URL check is not anchored at the end: every string of the form
`<anything>/<name>.tgz<anything>` with `<name>` a nonempty word over
letters, digits, dot and hyphen is accepted by the match; concretely, the
URL `https://example.org/dist/spark-1.0.tgz.zip`, whose final path segment
does not end in `.tgz`, is accepted at construction with derived name
`spark-1.0`. -/
theorem c9_url_check_not_anchored :
    (∀ (a g rest : List Char), g ≠ [] → (∀ c ∈ g, isNameChar c = true) →
      (reMatchTgz (a ++ '/' :: (g ++ '.' :: 't' :: 'g' :: 'z' :: rest))).isSome
        = true)
    ∧ endsWithTgz "https://example.org/dist/spark-1.0.tgz.zip" = false
    ∧ derive_dir_name "https://example.org/dist/spark-1.0.tgz.zip" =
        some "spark-1.0"
    ∧ NessieDemoSpark.init demoTgzZip fsTgzZipDir =
        Except.ok ([(mangle "__demo", Val.vDemo demoTgzZip)],
          [Event.setSparkHome "/assets/spark-1.0", Event.findsparkInit]) :=
  ⟨reMatchTgz_unanchored, by decide, by decide, by decide⟩

/-- C9 witness: the general acceptance fact at one concrete split of the
accepted URL. -/
theorem c9_url_check_not_anchored_witness :
    ("spark-1.0".toList ≠ []
      ∧ (∀ c ∈ "spark-1.0".toList, isNameChar c = true))
    ∧ (reMatchTgz ("https://example.org/dist".toList ++
        '/' :: ("spark-1.0".toList ++ '.' :: 't' :: 'g' :: 'z' :: ".zip".toList))).isSome
        = true :=
  ⟨⟨by decide, by decide⟩,
   c9_url_check_not_anchored.1 _ _ _ (by decide) (by decide)⟩

/-- C10: `spark_for_demo` assigns the new manager to the registry before
calling `get_or_create_spark_context`; when session creation fails, the
error propagates and the registry is left holding the new manager in its
session-less state (only the demo-handle attribute set). -/
theorem c10_register_before_create_no_rollback (w : World) (demo : NessieDemo)
    (fs : FileSystem) (r : String) (a : Attrs) (evs : List Event)
    (h : NessieDemoSpark.init demo fs = Except.ok (a, evs))
    (hfresh : heapGet (spark_dispose w).managers (spark_dispose w).nextId = none) :
    (spark_for_demo demo fs r false w).2 = Except.error PyErr.sparkError
    ∧ (spark_for_demo demo fs r false w).1.registry =
        some (spark_dispose w).nextId
    ∧ heapGet (spark_for_demo demo fs r false w).1.managers
        (spark_dispose w).nextId = some a
    ∧ attrsGet a (mangle "__spark") = none := by
  have ha := init_ok_attrs demo fs a evs h
  have hg : heapGet ((spark_dispose w).managers ++ [((spark_dispose w).nextId, a)])
      (spark_dispose w).nextId = some a := by
    rw [heapGet_append_of_none _ _ _ hfresh]
    simp [heapGet]
  have hdemo : attrsGet a (mangle "__demo") = some (Val.vDemo demo) := by
    rw [ha]
    simp [attrsGet]
  refine ⟨?_, ?_, ?_, ?_⟩
  · simp [spark_for_demo, h, NessieDemoSpark.get_or_create_spark_context, hg, hdemo]
  · simp [spark_for_demo, h, NessieDemoSpark.get_or_create_spark_context, hg, hdemo]
  · simp only [spark_for_demo, h, NessieDemoSpark.get_or_create_spark_context, hg, hdemo]
    exact hg
  · rw [ha]
    simp [attrsGet, mangle]

/-- C10 witness: a failing session creation from the empty world leaves the
fresh manager registered. -/
theorem c10_register_before_create_no_rollback_witness :
    (NessieDemoSpark.init demoA fsAB =
        Except.ok ([(mangle "__demo", Val.vDemo demoA)],
          [Event.setSparkHome "/assets/spark-3.2.1-bin-hadoop3.2",
           Event.findsparkInit])
      ∧ heapGet (spark_dispose World.empty).managers
          (spark_dispose World.empty).nextId = none)
    ∧ (spark_for_demo demoA fsAB "main" false World.empty).2 =
        Except.error PyErr.sparkError
    ∧ (spark_for_demo demoA fsAB "main" false World.empty).1.registry =
        some (spark_dispose World.empty).nextId := by
  have h := c10_register_before_create_no_rollback World.empty demoA fsAB "main"
    [(mangle "__demo", Val.vDemo demoA)]
    [Event.setSparkHome "/assets/spark-3.2.1-bin-hadoop3.2", Event.findsparkInit]
    (by decide) (by decide)
  exact ⟨⟨by decide, by decide⟩, h.1, h.2.1⟩

end NessieSpark
